import Mathlib

/-!
# Verification of the record-management program (`Program.py`)

A shallow embedding of the externally-synchronized record store of the
repository: spreadsheet load/save and the save-triggered sort, the
sentinel-file write lock, the retrying loader, the reaction of the filesystem
watcher to backing-file changes, the document locator, the filter engine
with faceted option narrowing, the dropdown-suggestion store, and the Add
operation.

Cell values are strings (the program reads the spreadsheet with
`dtype=str` and `fillna("")`, so every in-memory cell is a string);
file contents are explicit values; fallible operations return
`Except`/`Option`.  `strip`/`lowerStr` stand in for the Python
`str.strip`/`str.lower` (the data is ASCII plus Japanese characters,
which have no case and no exotic whitespace).
-/

namespace Macro

/-- Python `str.zfill(3)`: left-pad with `'0'` to width 3; a leading sign stays
in front of the padding, mirroring the Python `zfill`. -/
def zfill3 (s : String) : String :=
  if 3 ≤ s.length then s
  else
    let pad := String.mk (List.replicate (3 - s.length) '0')
    match s.data with
    | '+' :: rest => "+" ++ pad ++ String.mk rest
    | '-' :: rest => "-" ++ pad ++ String.mk rest
    | _ => pad ++ s

/-- Boolean infix test on character lists (`needle in hay` for strings). -/
def infixB (n : List Char) : List Char → Bool
  | [] => n.isEmpty
  | c :: h => n.isPrefixOf (c :: h) || infixB n h

/-- Python `needle in hay` substring containment. -/
def strContains (hay needle : String) : Bool :=
  infixB needle.data hay.data

/-- Python `str.strip()`: remove leading and trailing whitespace. -/
def strip (s : String) : String :=
  ⟨((s.data.dropWhile Char.isWhitespace).reverse.dropWhile Char.isWhitespace).reverse⟩

/-- Python `str.lower()`: lowercase every character (ASCII; the Japanese
characters appearing in the data have no case). -/
def lowerStr (s : String) : String := ⟨s.data.map Char.toLower⟩

/-- Python `str.startswith`. -/
def startsWithB (s pre : String) : Bool := pre.data.isPrefixOf s.data

/-- Python `str.endswith`. -/
def endsWithB (s suf : String) : Bool := suf.data.isSuffixOf s.data

/-- Parse a non-empty all-digit character list as a natural number. -/
def parseNat? (cs : List Char) : Option Nat :=
  if cs ≠ [] ∧ cs.all Char.isDigit then
    some (cs.foldl (fun n c => n * 10 + (c.toNat - '0'.toNat)) 0)
  else none

/-- Parse an optionally `-`-signed integer literal. -/
def parseInt? : List Char → Option Int
  | '-' :: rest => (parseNat? rest).map (fun n => -(n : Int))
  | cs => (parseNat? cs).map (fun n => (n : Int))

/-- Pandas `pd.to_numeric(s, errors="coerce").fillna(0)` on one cell: parse the
whitespace-stripped string as a number, non-numeric (or empty) becomes 0.
(The keys of the program are integer strings — the edit dialog validates
`isdigit()` — so integer parsing covers the numeric interpretations that
occur.) -/
def toNum (s : String) : Int :=
  (parseInt? (strip s).data).getD 0

/-- Model of `pandas.unique`: distinct values keeping the first occurrence of each. -/
def uniqueFirst (l : List String) : List String :=
  l.foldl (fun acc v => if v ∈ acc then acc else acc ++ [v]) []

/-- Lexicographic `≤` on character lists by code point — the Python string
comparison. -/
def listLeB : List Char → List Char → Bool
  | [], _ => true
  | _ :: _, [] => false
  | a :: as, b :: bs =>
    if a.toNat < b.toNat then true
    else if b.toNat < a.toNat then false
    else listLeB as bs

/-- Python `s1 <= s2` on strings. -/
def strLeB (a b : String) : Bool := listLeB a.data b.data

/-- Decidable equality for `Except` results, for evaluating the model on
concrete inputs. -/
instance exceptDecEq {ε α : Type} [DecidableEq ε] [DecidableEq α] :
    DecidableEq (Except ε α)
  | .error e, .error e' =>
    if h : e = e' then isTrue (by rw [h]) else
      isFalse (fun hh => h (by cases hh; rfl))
  | .error _, .ok _ => isFalse (fun hh => by cases hh)
  | .ok _, .error _ => isFalse (fun hh => by cases hh)
  | .ok a, .ok a' =>
    if h : a = a' then isTrue (by rw [h]) else
      isFalse (fun hh => h (by cases hh; rfl))

end Macro

namespace Macro

/-- A spreadsheet row in memory: an association list from column name to
string cell value (pandas row restricted to string dtype). -/
abbrev Row := List (String × String)

/-- Cell lookup: a column absent from the row reads as `""` (pandas `NaN`
already replaced by `fillna("")`). -/
def Row.cell (r : Row) (c : String) : String :=
  ((r.find? (fun p => p.1 == c)).map (·.2)).getD ""

/-- Column assignment `df[c] = v` restricted to one row: replace the cell
if the column exists, append it otherwise. -/
def Row.setCell (r : Row) (c v : String) : Row :=
  if r.any (fun p => p.1 == c) then
    r.map (fun p => if p.1 == c then (p.1, v) else p)
  else r ++ [(c, v)]

/-- An in-memory data frame: the column list plus the rows. -/
structure DF where
  cols : List String
  rows : List Row
deriving DecidableEq, Repr

/-- The persisted spreadsheet: a header row and the data cells, row-major. -/
structure ExcelFile where
  header : List String
  cells : List (List String)
deriving DecidableEq, Repr

/-- The list `DEFAULT_COLUMNS["english"]`, the schema column list `COLUMNS`. -/
def COLUMNS : List String :=
  ["Search No", "Reference model", "Contents", "Before correction",
   "After correction", "Verification Meeting – Implementation Period",
   "Record No.", "Model Name", "Target Part Name", "Motor Specification",
   "Issue Classification", "Update Info", "Updated By", "Upload Date"]

/-- The list `DEFAULT_COLUMNS["japanese"]`. -/
def JAPANESE_COLUMNS : List String :=
  ["検索No.", "参考機種", "内容", "訂正前", "訂正後", "検証会_実施期", "記録No.",
   "機種名", "対象部品名", "モータ仕様", "指摘項目の分類", "更新情報",
   "更新者", "アップロード日"]

/-- Model of `pd.read_excel(dtype=str).fillna("")`: the raw frame, columns from the
file header, each row zipped with the header. -/
def rawDF (f : ExcelFile) : DF :=
  ⟨f.header, f.cells.map (fun vals => f.header.zip vals)⟩

/-- The cleaning step shared by `load_excel` and `safe_load_excel`:
`pd.DataFrame({col: df[col] if col in df.columns else "" for col in cols})`
followed by stripping every cell. -/
def cleanDF (cols : List String) (f : ExcelFile) : DF :=
  ⟨cols, f.cells.map (fun vals =>
    cols.map (fun c =>
      (c, if c ∈ f.header then strip (Row.cell (f.header.zip vals) c)
          else "")))⟩

/-- Model of `load_excel()`: `none` models an absent backing file
(`not os.path.exists(EXCEL_PATH)`), which yields an empty frame shaped by
the schema columns; otherwise read, project onto the schema, fill missing
columns with `""`, strip every cell.  `cols` is the current global
`COLUMNS`. -/
def load_excel (cols : List String) (file : Option ExcelFile) : DF :=
  match file with
  | none => ⟨cols, []⟩
  | some f => cleanDF cols f

/-- Model of `save_excel(df)`: write `df[COLUMNS]` — exactly the schema columns in
schema order.  `df[COLUMNS]` raises `KeyError` when a schema column is
missing from the frame, modelled as `none`. -/
def save_excel (cols : List String) (df : DF) : Option ExcelFile :=
  if cols.all (fun c => c ∈ df.cols) then
    some ⟨cols, df.rows.map (fun r => cols.map (fun c => r.cell c))⟩
  else none

/-- The key ordering used by the save-triggered sort. -/
def keyOf (r : Row) : Int := toNum (r.cell "Search No")

/-- Rows ordered by the numeric interpretation of `"Search No"`. -/
def keyLe (a b : Row) : Prop := keyOf a ≤ keyOf b

instance : DecidableRel keyLe := fun a b => inferInstanceAs (Decidable (keyOf a ≤ keyOf b))

/-- The sort performed before every save
(`df["Search No"] = pd.to_numeric(df["Search No"], errors="coerce").fillna(0)`
then `df.sort_values("Search No")`): the key column is replaced by its
numeric coercion and the rows are sorted ascending by it. -/
def sortOnSave (df : DF) : DF :=
  ⟨df.cols,
   List.insertionSort keyLe
     (df.rows.map (fun r => r.setCell "Search No" (toString (toNum (r.cell "Search No")))))⟩

/-- The retry loop of `safe_load_excel()`, `read i` being the outcome of the
`i`-th `pd.read_excel` attempt (`none` = one of the caught exceptions:
`PermissionError`, `ValueError`, `OSError`, `zipfile.BadZipFile`).  The
second argument is the number of attempts left. -/
def safeLoadFrom (cols : List String) (read : Nat → Option ExcelFile) : Nat → Nat → DF
  | _, 0 => ⟨cols, []⟩
  | i, n + 1 =>
    match read i with
    | some f => cleanDF cols f
    | none => safeLoadFrom cols read (i + 1) n

/-- Model of `safe_load_excel()`: up to 5 read attempts (with a fixed delay between
them); if every attempt fails, an empty frame shaped by the current schema
columns is returned instead of raising. -/
def safe_load_excel (cols : List String) (read : Nat → Option ExcelFile) : DF :=
  safeLoadFrom cols read 0 5

/-- Model of `acquire_lock(retries, delay)` run sequentially (no concurrent writer
changing the sentinel mid-loop): each of the `retries` iterations checks
the sentinel, creates it exclusively and returns `True` when absent, and
sleeps otherwise; after the loop, `False`.  Returns
(success, sentinel state afterwards). -/
def acquire_lock : Nat → Bool → Bool × Bool
  | 0, locked => (false, locked)
  | n + 1, locked => if locked then acquire_lock n locked else (true, true)

/-- Model of `release_lock()`: removes the sentinel if present, never raising. -/
def release_lock (_locked : Bool) : Bool := false

/-- The match test of `find_pdf`: case-insensitive `.pdf` extension, and
the lowercased filename contains the fixed token `"検索no."` followed by
the zero-padded key. -/
def pdfMatch (search_no : String) (f : String) : Bool :=
  endsWithB (lowerStr f) ".pdf" && strContains (lowerStr f) ("検索no." ++ zfill3 search_no)

/-- Model of `find_pdf(search_no)`: `pdfDir` is the directory listing in listing
order, `none` when the directory is missing — in which case `os.listdir`
raises `FileNotFoundError` (modelled as `.error`).  Otherwise the first
matching entry, joined onto the directory path, or `none`. -/
def find_pdf (pdfDir : Option (List String)) (dirName : String) (search_no : String) :
    Except Unit (Option String) :=
  match pdfDir with
  | none => .error ()
  | some files => .ok ((files.find? (pdfMatch search_no)).map (fun f => dirName ++ "/" ++ f))

/-- A filter widget of `create_filters`: a text entry (`tk.StringVar` —
substring match for `"Search No"`, exact match for other text columns) or
a multi-select dropdown with its offered values and current selection. -/
inductive FilterW where
  | text (val : String) : FilterW
  | multi (values : List String) (selected : List String) : FilterW
deriving DecidableEq, Repr

/-- Whether one row passes one filter widget (an inactive widget — empty
text, empty selection — passes everything). -/
def matchesF (col : String) (w : FilterW) (r : Row) : Bool :=
  match w with
  | .text v =>
    let val := strip v
    if val == "" then true
    else if col == "Search No" then strContains (r.cell col) val
    else r.cell col == val
  | .multi _ sel =>
    if sel.isEmpty then true else sel.contains (r.cell col)

/-- The row-filtering pass of `apply_filters`: each active widget filters
the frame in turn. -/
def applyFilters (df : DF) (fs : List (String × FilterW)) : List Row :=
  fs.foldl (fun rows cw => rows.filter (fun r => matchesF cw.1 cw.2 r)) df.rows

/-- The mask built for a multi-select column: every active constraint
except the one owned by the column, over the unfiltered frame. -/
def matchesExcept (fs : List (String × FilterW)) (col : String) (r : Row) : Bool :=
  fs.all (fun cw => cw.1 == col || matchesF cw.1 cw.2 r)

/-- Python string `≤` (code-point lexicographic), as a relation. -/
def strLe (a b : String) : Prop := strLeB a b = true

instance : DecidableRel strLe :=
  fun a b => inferInstanceAs (Decidable (strLeB a b = true))

/-- Model of `sorted(self.df[mask][col].dropna().unique())`: distinct values (first
occurrence kept), then sorted.  The cells are strings (`dtype=str`,
`fillna("")`), so `dropna` drops nothing. -/
def availableFor (df : DF) (fs : List (String × FilterW)) (col : String) : List String :=
  List.insertionSort strLe
    (uniqueFirst ((df.rows.filter (matchesExcept fs col)).map (fun r => r.cell col)))

/-- The per-widget update of `apply_filters`: a multi-select widget gets
the narrowed option list and keeps only the still-available selections. -/
def updateWidget (df : DF) (fs : List (String × FilterW)) :
    String × FilterW → String × FilterW
  | (c, .text v) => (c, .text v)
  | (c, .multi _ sel) =>
    let avail := availableFor df fs c
    (c, .multi avail (sel.filter (fun v => avail.contains v)))

/-- Model of `apply_filters()`: the filtered rows plus the updated widget states. -/
def applyFiltersFull (df : DF) (fs : List (String × FilterW)) :
    List Row × List (String × FilterW) :=
  (applyFilters df fs, fs.map (updateWidget df fs))

/-- The columns whose entered values feed `dropdowns.json`. -/
def TRACKED_COLUMNS : List String :=
  ["Model Name", "Target Part Name", "Motor Specification",
   "Issue Classification", "Update Info"]

/-- Ordering of strings by their lowercased form (`sort(key=str.lower)`). -/
def lowerLe (a b : String) : Prop := strLe (lowerStr a) (lowerStr b)

instance : DecidableRel lowerLe :=
  fun a b => inferInstanceAs (Decidable (strLe (lowerStr a) (lowerStr b)))

/-- Python `list.sort(key=str.lower)`: stable sort by the lowercased string. -/
def sortByLower (l : List String) : List String := List.insertionSort lowerLe l

/-- The body of the dropdown-update loop in `save_entry` for one tracked
column with a non-empty entered value: `if val not in dropdowns[col]:
dropdowns[col].append(val); dropdowns[col].sort(key=str.lower)`. -/
def updateOneDropdown (cur : List String) (val : String) : List String :=
  if cur.contains val then cur else sortByLower (cur ++ [val])

/-- The `dropdowns.json` content: column identifier to suggestion list. -/
abbrev DropMap := List (String × List String)

/-- Dictionary lookup. -/
def DropMap.get (d : DropMap) (c : String) : Option (List String) :=
  (d.find? (fun p => p.1 == c)).map (·.2)

/-- Dictionary assignment. -/
def DropMap.set (d : DropMap) (c : String) (l : List String) : DropMap :=
  if d.any (fun p => p.1 == c) then
    d.map (fun p => if p.1 == c then (p.1, l) else p)
  else d ++ [(c, l)]

/-- The full dropdown-update loop of `save_entry` over the tracked
columns (a missing key is first created empty, matching
`if col not in dropdowns: dropdowns[col] = []`). -/
def updateDropdowns (drops : DropMap) (fields : String → String) : DropMap :=
  TRACKED_COLUMNS.foldl (fun d col =>
    let val := strip (fields col)
    if val == "" then d
    else
      let cur := (DropMap.get d col).getD []
      DropMap.set d col (updateOneDropdown cur val)) drops

/-- Outcome of the Add operation (`save_entry`): the message shown, or an
uncaught `KeyError` when the reloaded sheet lacks the key column. -/
inductive SaveResult where
  | requiredError : SaveResult
  | keyError : SaveResult
  | duplicateError : SaveResult
  | saveFailed : SaveResult
  | success : SaveResult
deriving DecidableEq, Repr

/-- The external state touched by the Add operation: the backing
spreadsheet, the document directory (existence and file names), the
dropdown-suggestions store, and the write-lock sentinel. -/
structure AppFiles where
  excel : Option ExcelFile
  pdfDirExists : Bool
  pdfFiles : List String
  dropdowns : DropMap
  lockExists : Bool
deriving DecidableEq, Repr

/-- The user input of the Add dialog: the field variables, the chosen PDF
path (`""` = none), and the ambient user name and timestamp. -/
structure EntryInput where
  fields : String → String
  pdfSrc : String
  user : String
  now : String

/-- Model of `save_excel_with_lock(df)` run sequentially: acquire the sentinel with
5 retries (raising — `.error` — without touching the sentinel when
acquisition fails); with the lock held, write `df[COLUMNS]` (a `KeyError`
on a missing schema column propagates) and release the sentinel in the
`finally` block.  Returns (written file or error, sentinel state after). -/
def save_excel_with_lock (cols : List String) (df : DF) (lockExists : Bool) :
    Except Unit ExcelFile × Bool :=
  let acq := acquire_lock 5 lockExists
  if acq.1 then
    match save_excel cols df with
    | some f => (.ok f, release_lock acq.2)
    | none => (.error (), release_lock acq.2)
  else (.error (), acq.2)

/-- The reload at the start of `save_entry`: the latest backing file read
raw (`pd.read_excel(dtype=str).fillna("")`, no cleaning), or an empty
frame shaped by `COLUMNS` when the file is absent. -/
def reloadLatest (cols : List String) (st : AppFiles) : DF :=
  match st.excel with
  | some f => rawDF f
  | none => ⟨cols, []⟩

/-- Model of `DiagramApp.save_entry`: reject empty key or missing PDF; create the
document directory; reload the latest sheet; reject a duplicate
(whitespace-trimmed) key before any mutation; copy the chosen PDF under
the synthesized name; append the new row; update the dropdown store; sort
by numeric key; save under the lock. -/
def save_entry (cols : List String) (st : AppFiles) (inp : EntryInput) :
    SaveResult × AppFiles :=
  if inp.fields "Search No" == "" || inp.pdfSrc == "" then (.requiredError, st)
  else
    let st1 := { st with pdfDirExists := true }
    let search_no := strip (inp.fields "Search No")
    let latest : DF := reloadLatest cols st
    if !(latest.cols.contains "Search No") then (.keyError, st1)
    else if latest.rows.any (fun r => strip (r.cell "Search No") == search_no) then
      (.duplicateError, st1)
    else
      let pdfName := "検索No." ++ zfill3 (inp.fields "Search No") ++ "_"
        ++ strip (inp.fields "Type 1") ++ "_" ++ strip (inp.fields "Type 2") ++ ".pdf"
      let st2 := { st1 with
        pdfFiles := if st1.pdfFiles.contains pdfName then st1.pdfFiles
                    else st1.pdfFiles ++ [pdfName] }
      let newRow : Row := cols.map (fun c =>
        (c, if c == "Updated By" then inp.user
            else if c == "Upload Date" then inp.now
            else inp.fields c))
      let grownCols := latest.cols ++ cols.filter (fun c => !(latest.cols.contains c))
      let grown : DF := ⟨grownCols, latest.rows ++ [newRow]⟩
      let st3 := { st2 with dropdowns := updateDropdowns st2.dropdowns inp.fields }
      let saved := save_excel_with_lock cols (sortOnSave grown) st3.lockExists
      match saved.1 with
      | .error _ => (.saveFailed, { st3 with lockExists := saved.2 })
      | .ok f => (.success, { st3 with excel := some f, lockExists := saved.2 })

/-- Content of `columns.json` as read by `load_columns_json`. -/
structure ColumnsData where
  english : List String
  japanese : List String
deriving DecidableEq, Repr

/-- A watchdog filesystem event. -/
structure Event where
  isDirectory : Bool
  srcPath : String
deriving DecidableEq, Repr

/-- Model of `os.path.basename`. -/
def basename (p : String) : String :=
  ⟨(p.data.reverse.takeWhile (fun c => !(c == '/' || c == '\x5c'))).reverse⟩

/-- The watcher-visible state: debounce clock, the frame last handed to
`refresh_table` (what the table view displays), the global column lists,
the dropdown options, and which popups this event scheduled. -/
structure WState where
  lastUpdate : Nat
  displayed : DF
  columnsEnglish : List String
  columnsJapanese : List String
  dropdownOptions : DropMap
  infoPopup : Bool
  lockNotice : Bool
deriving DecidableEq, Repr

/-- The file reads performed during one watcher reaction: the successive
`pd.read_excel` attempt outcomes inside `safe_load_excel`, the
`columns.json` read (`.error` = `PermissionError`), and the
`dropdowns.json` read (`.error` = `PermissionError`; a missing file is
already mapped to `{}` by the code). -/
structure WEnv where
  excelRead : Nat → Option ExcelFile
  columnsRead : Except Unit ColumnsData
  dropdownsRead : Except Unit DropMap

/-- Model of `ExcelHandler.on_any_event`: ignore directory events, temp and Office
lock artifacts, and paths other than the watched file; debounce within a
2-second window; otherwise reload via `safe_load_excel` (using the current
schema columns), reload the column registry, schedule the UI refresh with
the reloaded frame plus an info popup, and reload the dropdown store.  A
`PermissionError` from either auxiliary read is caught and schedules the
lock warning instead (`os.path.normcase`/`abspath` are modelled as the
identity on the already-canonical paths involved). -/
def on_any_event (watched : String) (st : WState) (ev : Event) (now : Nat) (env : WEnv) :
    WState :=
  if ev.isDirectory then st
  else
    let filename := basename ev.srcPath
    if startsWithB filename "~$" || endsWithB filename ".tmp" then st
    else if ev.srcPath == watched then
      if now - st.lastUpdate < 2 then st
      else
        let st1 := { st with lastUpdate := now, infoPopup := false, lockNotice := false }
        let new_df := safe_load_excel st.columnsEnglish env.excelRead
        match env.columnsRead with
        | .error _ => { st1 with lockNotice := true }
        | .ok cd =>
          let st2 := { st1 with
            columnsEnglish := cd.english, columnsJapanese := cd.japanese,
            displayed := new_df, infoPopup := true }
          match env.dropdownsRead with
          | .error _ => { st2 with lockNotice := true }
          | .ok drops => { st2 with dropdownOptions := drops }
    else st

end Macro


/-! ## Proofs -/

namespace Macro

/-- Unfolding characterization of `listLeB` on two cons cells. -/
theorem listLeB_cons {a b : Char} {as bs : List Char} :
    listLeB (a :: as) (b :: bs) = true ↔
      a.toNat < b.toNat ∨ (a.toNat = b.toNat ∧ listLeB as bs = true) := by
  simp only [listLeB]
  split_ifs with h1 h2
  · simp [h1]
  · simp [h1, h2.ne']
  · have he : a.toNat = b.toNat := le_antisymm (not_lt.mp h2) (not_lt.mp h1)
    simp [h1, he]

/-- Totality of `listLeB`. -/
theorem listLeB_total (as bs : List Char) : listLeB as bs = true ∨ listLeB bs as = true := by
  induction as generalizing bs with
  | nil => left; rfl
  | cons a as ih =>
    cases bs with
    | nil => right; rfl
    | cons b bs =>
      rcases lt_trichotomy a.toNat b.toNat with h | h | h
      · exact Or.inl (listLeB_cons.mpr (Or.inl h))
      · rcases ih bs with h' | h'
        · exact Or.inl (listLeB_cons.mpr (Or.inr ⟨h, h'⟩))
        · exact Or.inr (listLeB_cons.mpr (Or.inr ⟨h.symm, h'⟩))
      · exact Or.inr (listLeB_cons.mpr (Or.inl h))

/-- Transitivity of `listLeB`. -/
theorem listLeB_trans (as bs cs : List Char) (h1 : listLeB as bs = true)
    (h2 : listLeB bs cs = true) : listLeB as cs = true := by
  induction as generalizing bs cs with
  | nil => rfl
  | cons a as ih =>
    cases bs with
    | nil => simp [listLeB] at h1
    | cons b bs =>
      cases cs with
      | nil => simp [listLeB] at h2
      | cons c cs =>
        rcases listLeB_cons.mp h1 with hab | ⟨hab, r1⟩ <;>
          rcases listLeB_cons.mp h2 with hbc | ⟨hbc, r2⟩
        · exact listLeB_cons.mpr (Or.inl (lt_trans hab hbc))
        · exact listLeB_cons.mpr (Or.inl (hbc ▸ hab))
        · exact listLeB_cons.mpr (Or.inl (hab ▸ hbc))
        · exact listLeB_cons.mpr (Or.inr ⟨hab.trans hbc, ih bs cs r1 r2⟩)

instance : IsTotal Row keyLe := ⟨fun a b => le_total (keyOf a) (keyOf b)⟩

instance : IsTrans Row keyLe := ⟨fun _ _ _ => le_trans⟩

instance : IsTotal String strLe := ⟨fun a b => listLeB_total a.data b.data⟩

instance : IsTrans String strLe := ⟨fun a b c => listLeB_trans a.data b.data c.data⟩

instance : IsTotal String lowerLe :=
  ⟨fun a b => listLeB_total (lowerStr a).data (lowerStr b).data⟩

instance : IsTrans String lowerLe :=
  ⟨fun a b c => listLeB_trans (lowerStr a).data (lowerStr b).data (lowerStr c).data⟩

/-- Cell lookup on a cons cell. -/
theorem Row.cell_cons (p : String × String) (r : Row) (c : String) :
    Row.cell (p :: r) c = if p.1 == c then p.2 else Row.cell r c := by
  by_cases h : p.1 == c <;> simp [Row.cell, List.find?, h]

/-- Reading back a cell of a row that was written as `cols.map g`, zipped
against the same header: the first occurrence of the column name wins and
carries `g c`. -/
theorem cell_zip_map (g : String → String) (cols : List String) (c : String)
    (hc : c ∈ cols) : Row.cell (cols.zip (cols.map g)) c = g c := by
  induction cols with
  | nil => cases hc
  | cons c' cols ih =>
    rw [List.map_cons, List.zip_cons_cons, Row.cell_cons]
    by_cases h : c' == c
    · rw [if_pos h]
      exact congrArg g (eq_of_beq h)
    · rw [if_neg h]
      rcases List.mem_cons.mp hc with rfl | hmem
      · simp at h
      · exact ih hmem

/-- Membership in the sequentially-filtered rows: survive every widget. -/
theorem mem_applyFilters_go (fs : List (String × FilterW)) (rows : List Row) (r : Row) :
    r ∈ fs.foldl (fun rows cw => rows.filter (fun r => matchesF cw.1 cw.2 r)) rows ↔
      r ∈ rows ∧ ∀ cw ∈ fs, matchesF cw.1 cw.2 r = true := by
  induction fs generalizing rows with
  | nil => simp
  | cons cw fs ih =>
    rw [List.foldl_cons, ih]
    simp only [List.mem_filter, List.mem_cons]
    constructor
    · rintro ⟨⟨hr, hm⟩, hall⟩
      exact ⟨hr, fun cw' h' => h'.elim (fun e => e ▸ hm) (hall cw')⟩
    · rintro ⟨hr, hall⟩
      exact ⟨⟨hr, hall cw (Or.inl rfl)⟩, fun cw' h' => hall cw' (Or.inr h')⟩

/-- A row is in the result of `apply_filters` iff it is a row of the frame
passing every widget. -/
theorem mem_applyFilters (df : DF) (fs : List (String × FilterW)) (r : Row) :
    r ∈ applyFilters df fs ↔
      r ∈ df.rows ∧ ∀ cw ∈ fs, matchesF cw.1 cw.2 r = true :=
  mem_applyFilters_go fs df.rows r

/-- Membership in the accumulator recursion of `uniqueFirst`. -/
theorem mem_uniqueFirst_go (l acc : List String) (v : String) :
    v ∈ l.foldl (fun acc v => if v ∈ acc then acc else acc ++ [v]) acc ↔
      v ∈ acc ∨ v ∈ l := by
  induction l generalizing acc with
  | nil => simp
  | cons a l ih =>
    rw [List.foldl_cons]
    by_cases h : a ∈ acc
    · rw [if_pos h, ih]
      simp only [List.mem_cons]
      constructor
      · tauto
      · rintro (hv | rfl | hv) <;> tauto
    · rw [if_neg h, ih]
      simp only [List.mem_append, List.mem_singleton, List.mem_cons]
      tauto

/-- Membership is preserved by `uniqueFirst`. -/
theorem mem_uniqueFirst (l : List String) (v : String) :
    v ∈ uniqueFirst l ↔ v ∈ l := by
  rw [uniqueFirst, mem_uniqueFirst_go]
  simp

/-- Nodup is preserved by the accumulator recursion of `uniqueFirst`. -/
theorem nodup_uniqueFirst_go (l acc : List String) (hacc : acc.Nodup) :
    (l.foldl (fun acc v => if v ∈ acc then acc else acc ++ [v]) acc).Nodup := by
  induction l generalizing acc with
  | nil => exact hacc
  | cons a l ih =>
    rw [List.foldl_cons]
    by_cases h : a ∈ acc
    · rw [if_pos h]; exact ih acc hacc
    · rw [if_neg h]
      refine ih (acc ++ [a]) ?_
      simp [List.nodup_append, hacc, h]

/-- Distinctness of the `uniqueFirst` output. -/
theorem nodup_uniqueFirst (l : List String) : (uniqueFirst l).Nodup :=
  nodup_uniqueFirst_go l [] List.nodup_nil

/-- C1 (amended): `load(save(T))` returns exactly the rows of T projected
onto the schema columns, with every cell whitespace-trimmed, missing
schema columns filled with `""` and non-schema columns dropped — but in
the original row order of T, not re-sorted: neither `save_excel` nor
`load_excel` sorts (the canonical ascending key order holds only when T
was already so sorted; sorting lives in the save-triggered operations). -/
theorem c1_roundtrip_projection (cols : List String) (df : DF)
    (h : ∀ c ∈ cols, c ∈ df.cols) :
    load_excel cols (save_excel cols df) =
      ⟨cols, df.rows.map (fun r => cols.map (fun c => (c, strip (r.cell c))))⟩ := by
  have hall : cols.all (fun c => decide (c ∈ df.cols)) = true :=
    List.all_eq_true.mpr (fun c hc => decide_eq_true (h c hc))
  rw [save_excel, if_pos hall]
  simp only [load_excel, cleanDF, List.map_map]
  apply congrArg
  apply List.map_congr_left
  intro r _
  simp only [Function.comp]
  apply List.map_congr_left
  intro c hc
  rw [if_pos hc, cell_zip_map (fun c => r.cell c) cols c hc]

/-- C1 counterexample: saving the table whose keys are `["10", "2"]` and
loading it back yields the rows still in that order, which is not the
canonical ascending order of the numeric keys — `load(save(T))` does not
sort. -/
theorem c1_counterexample :
    ¬ List.Pairwise keyLe
        (load_excel COLUMNS (save_excel COLUMNS
          ⟨COLUMNS, [[("Search No", "10")], [("Search No", "2")]]⟩)).rows := by
  decide

/-- C1 witness: the round trip evaluated on a one-row table carrying a
non-schema column and an untrimmed key cell. -/
theorem c1_witness :
    load_excel COLUMNS (save_excel COLUMNS
        (⟨COLUMNS, [[("Search No", " 7 "), ("Extra", "x")]]⟩ : DF)) =
      ⟨COLUMNS, ([[("Search No", " 7 "), ("Extra", "x")]] : List Row).map
        (fun r => COLUMNS.map (fun c => (c, strip (r.cell c))))⟩ :=
  c1_roundtrip_projection COLUMNS _ (fun _ hc => hc)

/-- C2: in the output of the save-triggered sort, every row whose coerced key
is 0 (non-numeric or empty keys coerce to 0) appears strictly before
every row with a strictly positive numeric key; and on the concrete table
with keys `["10", "2", "abc"]`, a save and subsequent load returns the
rows in the order `["abc"(as 0), "2", "10"]`. -/
theorem c2_sort_zero_keys_first :
    (∀ (df : DF) (i j : Nat) (hi : i < (sortOnSave df).rows.length)
        (hj : j < (sortOnSave df).rows.length),
        keyOf ((sortOnSave df).rows.get ⟨i, hi⟩) = 0 →
        0 < keyOf ((sortOnSave df).rows.get ⟨j, hj⟩) → i < j)
    ∧ (load_excel COLUMNS (save_excel COLUMNS (sortOnSave
        ⟨COLUMNS, [[("Search No", "10"), ("Contents", "A")],
                   [("Search No", "2"), ("Contents", "B")],
                   [("Search No", "abc"), ("Contents", "C")]]⟩))).rows.map
        (fun r => (r.cell "Search No", r.cell "Contents"))
        = [("0", "C"), ("2", "B"), ("10", "A")] := by
  constructor
  · intro df i j hi hj h0 hpos
    have hsort : List.Sorted keyLe (sortOnSave df).rows :=
      List.sorted_insertionSort keyLe _
    by_contra hij
    have hrel := hsort.rel_get_of_le
      (a := (⟨j, hj⟩ : Fin (sortOnSave df).rows.length)) (b := ⟨i, hi⟩)
      (Fin.mk_le_mk.mpr (Nat.le_of_not_lt hij))
    simp only [keyLe] at hrel
    rw [h0] at hrel
    exact absurd hpos (not_lt.mpr hrel)
  · decide

/-- C2 witness: the general part applied to the table with keys
`["5", "abc"]` — the coerced-to-0 row lands at index 0, before the
positive-key row at index 1. -/
theorem c2_witness : (0 : Nat) < 1 :=
  c2_sort_zero_keys_first.1 ⟨COLUMNS, [[("Search No", "5")], [("Search No", "abc")]]⟩
    0 1 (by decide) (by decide) (by decide) (by decide)

/-- C3: sequential lock behaviour — while the sentinel exists every
acquire returns failure for any retry budget (leaving the sentinel in
place), an acquire with the sentinel absent and at least one retry
succeeds immediately, and the specified scenario holds: first acquire true,
second acquire on the unreleased lock false, third acquire after release
true. -/
theorem c3_lock_exclusive :
    (∀ n : Nat, acquire_lock n true = (false, true))
    ∧ (∀ n : Nat, 1 ≤ n → acquire_lock n false = (true, true))
    ∧ (acquire_lock 3 false = (true, true)
       ∧ acquire_lock 3 (acquire_lock 3 false).2 = (false, true)
       ∧ acquire_lock 3
           (release_lock (acquire_lock 3 (acquire_lock 3 false).2).2) = (true, true)) := by
  refine ⟨?_, ?_, by decide⟩
  · intro n
    induction n with
    | zero => rfl
    | succ n ih => simpa [acquire_lock] using ih
  · intro n hn
    match n, hn with
    | n + 1, _ => rfl

/-- C3 witness: an acquire with 2 retries on a free lock succeeds. -/
theorem c3_witness : acquire_lock 2 false = (true, true) :=
  c3_lock_exclusive.2.1 2 (by decide)

/-- C4: the filtered result is a subset of the rows of the frame, every
surviving row passes every active constraint (substring containment for
the key column, set membership for multi-select columns, conjoined), and
removing any one constraint never shrinks the result. -/
theorem c4_filter_subset_and_monotone (df : DF) (fs : List (String × FilterW)) :
    (∀ r ∈ applyFilters df fs, r ∈ df.rows)
    ∧ (∀ r ∈ applyFilters df fs, ∀ cw ∈ fs, matchesF cw.1 cw.2 r = true)
    ∧ (∀ (cw : String × FilterW) (r : Row),
        r ∈ applyFilters df fs → r ∈ applyFilters df (fs.erase cw)) := by
  refine ⟨fun r hr => ((mem_applyFilters df fs r).mp hr).1,
          fun r hr => ((mem_applyFilters df fs r).mp hr).2,
          fun cw r hr => ?_⟩
  have h := (mem_applyFilters df fs r).mp hr
  exact (mem_applyFilters df (fs.erase cw) r).mpr
    ⟨h.1, fun cw' h' => h.2 cw' (List.erase_subset cw fs h')⟩

/-- C4 witness: on a two-row table with an active key filter and an
active model filter, the surviving row is a row of the table. -/
theorem c4_witness :
    ([("Search No", "1"), ("Model Name", "X")] : Row) ∈
      (⟨COLUMNS, [[("Search No", "1"), ("Model Name", "X")],
                  [("Search No", "10"), ("Model Name", "Y")]]⟩ : DF).rows :=
  (c4_filter_subset_and_monotone
      ⟨COLUMNS, [[("Search No", "1"), ("Model Name", "X")],
                 [("Search No", "10"), ("Model Name", "Y")]]⟩
      [("Search No", FilterW.text "1"), ("Model Name", FilterW.multi ["X", "Y"] ["X"])]).1
    [("Search No", "1"), ("Model Name", "X")] (by decide)

/-- C5: the option list recomputed for a column is sorted and
duplicate-free, its members are exactly the values of that column over
the rows of the unfiltered frame passing every constraint except the
own constraint of the column, and the widget update keeps exactly the previously
selected values still present in that list. -/
theorem c5_option_narrowing (df : DF) (fs : List (String × FilterW)) (col : String) :
    List.Sorted strLe (availableFor df fs col)
    ∧ (availableFor df fs col).Nodup
    ∧ (∀ v, v ∈ availableFor df fs col ↔
        ∃ r ∈ df.rows, matchesExcept fs col r = true ∧ r.cell col = v)
    ∧ (∀ (k : Nat) (vals sel : List String),
        fs[k]? = some (col, .multi vals sel) →
        (applyFiltersFull df fs).2[k]? =
          some (col, .multi (availableFor df fs col)
            (sel.filter (fun v => (availableFor df fs col).contains v)))) := by
  refine ⟨List.sorted_insertionSort strLe _,
          ((List.perm_insertionSort strLe _).nodup_iff).mpr (nodup_uniqueFirst _),
          ?_, ?_⟩
  · intro v
    rw [availableFor, List.mem_insertionSort, mem_uniqueFirst]
    simp only [List.mem_map, List.mem_filter]
    constructor
    · rintro ⟨r, ⟨hr, hm⟩, rfl⟩
      exact ⟨r, hr, hm, rfl⟩
    · rintro ⟨r, hr, hm, rfl⟩
      exact ⟨r, ⟨hr, hm⟩, rfl⟩
  · intro k vals sel hk
    simp only [applyFiltersFull, List.getElem?_map, hk, Option.map_some', updateWidget]

/-- C5 witness: the model-column widget, its own selection active, is
offered both models (the other active constraint, the key filter "1",
matches both keys), and keeps its selection. -/
theorem c5_witness :
    (applyFiltersFull
        ⟨COLUMNS, [[("Search No", "1"), ("Model Name", "X")],
                   [("Search No", "10"), ("Model Name", "Y")]]⟩
        [("Search No", FilterW.text "1"),
         ("Model Name", FilterW.multi ["X", "Y"] ["Y"])]).2[1]? =
      some ("Model Name", FilterW.multi
        (availableFor
          ⟨COLUMNS, [[("Search No", "1"), ("Model Name", "X")],
                     [("Search No", "10"), ("Model Name", "Y")]]⟩
          [("Search No", FilterW.text "1"),
           ("Model Name", FilterW.multi ["X", "Y"] ["Y"])] "Model Name")
        (["Y"].filter (fun v =>
          (availableFor
            ⟨COLUMNS, [[("Search No", "1"), ("Model Name", "X")],
                       [("Search No", "10"), ("Model Name", "Y")]]⟩
            [("Search No", FilterW.text "1"),
             ("Model Name", FilterW.multi ["X", "Y"] ["Y"])] "Model Name").contains v))) :=
  (c5_option_narrowing
      ⟨COLUMNS, [[("Search No", "1"), ("Model Name", "X")],
                 [("Search No", "10"), ("Model Name", "Y")]]⟩
      [("Search No", FilterW.text "1"),
       ("Model Name", FilterW.multi ["X", "Y"] ["Y"])] "Model Name").2.2.2
    1 ["X", "Y"] ["Y"] (by decide)

/-- Lemma: `List.find?` skips a prefix on which the predicate is false. -/
theorem find?_append_of_false {α : Type} {p : α → Bool} :
    ∀ (pre : List α), (∀ g ∈ pre, p g = false) →
      ∀ l : List α, (pre ++ l).find? p = l.find? p := by
  intro pre
  induction pre with
  | nil => intro _ l; rfl
  | cons a pre ih =>
    intro h l
    rw [List.cons_append, List.find?]
    rw [h a (List.mem_cons_self a pre)]
    exact ih (fun g hg => h g (List.mem_cons_of_mem a hg)) l

/-- C6 (amended): with the document directory present, `find_pdf` returns
`none` when no entry matches and otherwise the first matching entry in
listing order (case-insensitive `.pdf` extension, lowercased name
containing the fixed token followed by the 3-digit-padded key), joined
onto the directory path; with the directory missing, `os.listdir` raises
(`FileNotFoundError`) instead of returning `none`. -/
theorem c6_find_first_match :
    (∀ (d k : String), find_pdf none d k = .error ())
    ∧ (∀ (files : List String) (d k : String),
        (∀ f ∈ files, pdfMatch k f = false) →
        find_pdf (some files) d k = .ok none)
    ∧ (∀ (pre post : List String) (d k f : String),
        pdfMatch k f = true → (∀ g ∈ pre, pdfMatch k g = false) →
        find_pdf (some (pre ++ f :: post)) d k = .ok (some (d ++ "/" ++ f))) := by
  refine ⟨fun d k => rfl, ?_, ?_⟩
  · intro files d k h
    have : files.find? (pdfMatch k) = none :=
      List.find?_eq_none.mpr (fun f hf => by simp [h f hf])
    simp [find_pdf, this]
  · intro pre post d k f hf hpre
    have : (pre ++ f :: post).find? (pdfMatch k) = some f := by
      rw [find?_append_of_false pre hpre, List.find?_cons_of_pos post hf]
    simp [find_pdf, this]

/-- C6 counterexample: with the directory missing, `find_pdf` raises —
it does not return `none`. -/
theorem c6_counterexample :
    find_pdf none "pdf" "7" = .error ()
    ∧ find_pdf none "pdf" "7" ≠ .ok none := ⟨by decide, by decide⟩

/-- C6 witness: the first of two matching files wins, in listing order;
extension matching is case-insensitive. -/
theorem c6_witness :
    find_pdf (some ["a.txt", "検索No.007_t1_t2.PDF", "検索no.007_x.pdf"]) "pdf" "7"
      = .ok (some ("pdf" ++ "/" ++ "検索No.007_t1_t2.PDF")) :=
  c6_find_first_match.2.2 ["a.txt"] ["検索no.007_x.pdf"] "pdf" "7"
    "検索No.007_t1_t2.PDF" (by decide) (by decide)

/-- The retry loop consults only the outcomes of the attempts it
performs. -/
theorem safeLoadFrom_congr (cols : List String) (read read' : Nat → Option ExcelFile) :
    ∀ (n i : Nat), (∀ j, j < n → read (i + j) = read' (i + j)) →
      safeLoadFrom cols read i n = safeLoadFrom cols read' i n := by
  intro n
  induction n with
  | zero => intro i _; rfl
  | succ n ih =>
    intro i h
    have h0 : read i = read' i := by simpa using h 0 (Nat.succ_pos n)
    simp only [safeLoadFrom, h0]
    cases hri : read' i with
    | some f => rfl
    | none =>
      exact ih (i + 1) (fun j hj => by
        have hstep := h (j + 1) (Nat.succ_lt_succ hj)
        have e : i + (j + 1) = i + 1 + j := by omega
        rw [e] at hstep
        exact hstep)

/-- C7: the retrying loader is total (never raises): it consults at most
its 5 attempt outcomes, returns the cleaned first successful read, and
when every attempt fails returns the empty table shaped by the current
schema columns. -/
theorem c7_safe_load_never_raises :
    (∀ (cols : List String) (read : Nat → Option ExcelFile),
        (∀ i, i < 5 → read i = none) → safe_load_excel cols read = ⟨cols, []⟩)
    ∧ (∀ (cols : List String) (read : Nat → Option ExcelFile) (f : ExcelFile),
        read 0 = some f → safe_load_excel cols read = cleanDF cols f)
    ∧ (∀ (cols : List String) (read read' : Nat → Option ExcelFile),
        (∀ i, i < 5 → read i = read' i) →
        safe_load_excel cols read = safe_load_excel cols read') := by
  refine ⟨?_, ?_, ?_⟩
  · intro cols read h
    have hc := safeLoadFrom_congr cols read (fun _ => none) 5 0
      (fun j hj => by simpa using h j hj)
    rw [safe_load_excel, hc]
    rfl
  · intro cols read f h
    rw [safe_load_excel]
    simp [safeLoadFrom, h]
  · intro cols read read' h
    exact safeLoadFrom_congr cols read read' 5 0 (fun j hj => by simpa using h j hj)

/-- C7 witness: five failing attempts yield the empty schema-shaped
frame. -/
theorem c7_witness : safe_load_excel COLUMNS (fun _ => none) = ⟨COLUMNS, []⟩ :=
  c7_safe_load_never_raises.1 COLUMNS (fun _ => none) (fun _ _ => rfl)

/-- C8 (code-bug evidence): a modification event for the backing file
while every read attempt fails with the file locked (`PermissionError`
is among the exceptions `safe_load_excel` swallows) makes the watcher
hand the **empty** frame to the UI refresh and schedule no lock notice:
the displayed table is clobbered rather than left untouched, because
`safe_load_excel` converts the failure into an empty frame, making the
own `except PermissionError` lock-warning branch of the handler unreachable
for the Excel read. -/
theorem c8_locked_reload_clobbers_table :
    on_any_event "excel/diagram_list.xlsx"
        ⟨0, ⟨COLUMNS, [[("Search No", "1"), ("Contents", "A")]]⟩,
         COLUMNS, JAPANESE_COLUMNS, [], false, false⟩
        ⟨false, "excel/diagram_list.xlsx"⟩ 10
        ⟨fun _ => none, .ok ⟨COLUMNS, JAPANESE_COLUMNS⟩, .ok []⟩
      = ⟨10, ⟨COLUMNS, []⟩, COLUMNS, JAPANESE_COLUMNS, [], true, false⟩
    ∧ (⟨COLUMNS, [[("Search No", "1"), ("Contents", "A")]]⟩ : DF)
        ≠ (⟨COLUMNS, []⟩ : DF) := by
  exact ⟨by decide, by decide⟩

/-- C9 (amended): the dropdown store's per-column update de-duplicates by
case-sensitive exact match — a value already present verbatim leaves the
list unchanged — and a newly appended value re-sorts the list by its
lowercased form (case-insensitive ordering); the updated list contains
exactly the old values plus the new one. -/
theorem c9_dropdown_update (cur : List String) (val : String) :
    (val ∈ cur → updateOneDropdown cur val = cur)
    ∧ (val ∉ cur →
        List.Sorted lowerLe (updateOneDropdown cur val)
        ∧ (∀ v, v ∈ updateOneDropdown cur val ↔ v ∈ cur ∨ v = val)) := by
  have hc : (cur.contains val = true) ↔ val ∈ cur := by simp
  constructor
  · intro h
    rw [updateOneDropdown, if_pos (hc.mpr h)]
  · intro h
    rw [updateOneDropdown, if_neg (fun hcc => h (hc.mp hcc))]
    refine ⟨List.sorted_insertionSort lowerLe _, fun v => ?_⟩
    rw [sortByLower, List.mem_insertionSort, List.mem_append, List.mem_singleton]

/-- C9 counterexample: entering `"xa"` for a tracked column whose store
already holds `"Xa"` creates a second entry — the de-duplication is
case-sensitive, not case-insensitive. -/
theorem c9_counterexample :
    updateDropdowns [("Model Name", ["Xa"])]
        (fun c => if c == "Model Name" then "xa" else "")
      = [("Model Name", ["Xa", "xa"])]
    ∧ ([("Model Name", ["Xa", "xa"])] : DropMap) ≠ [("Model Name", ["Xa"])] :=
  ⟨by decide, by decide⟩

/-- C9 witness: appending `"B"` to `["b"]` yields a case-insensitively
sorted list, and re-entering an identical value leaves the store
unchanged. -/
theorem c9_witness :
    List.Sorted lowerLe (updateOneDropdown ["b"] "B")
    ∧ updateOneDropdown ["a"] "a" = ["a"] :=
  ⟨((c9_dropdown_update ["b"] "B").2 (by decide)).1,
   (c9_dropdown_update ["a"] "a").1 (by decide)⟩

/-- C10: when the freshly reloaded backing table already contains a row
whose trimmed key equals the trimmed key of the new entry, `save_entry`
reports the duplicate error and returns before copying any document file
or writing: the spreadsheet, the document-directory file list and the
dropdown store are all left unchanged (only the `os.makedirs` ensuring
the document directory exists has run). -/
theorem c10_duplicate_key_rejected (cols : List String) (st : AppFiles)
    (inp : EntryInput)
    (hkey : ¬ inp.fields "Search No" = "")
    (hpdf : ¬ inp.pdfSrc = "")
    (hcol : (reloadLatest cols st).cols.contains "Search No" = true)
    (hdup : (reloadLatest cols st).rows.any
        (fun r => strip (r.cell "Search No") == strip (inp.fields "Search No")) = true) :
    save_entry cols st inp = (.duplicateError, { st with pdfDirExists := true })
    ∧ (save_entry cols st inp).2.excel = st.excel
    ∧ (save_entry cols st inp).2.pdfFiles = st.pdfFiles
    ∧ (save_entry cols st inp).2.dropdowns = st.dropdowns := by
  have hcond : (inp.fields "Search No" == "" || inp.pdfSrc == "") = false := by
    simp [hkey, hpdf]
  have h1 : save_entry cols st inp = (.duplicateError, { st with pdfDirExists := true }) := by
    rw [save_entry]
    simp only [hcond, Bool.false_eq_true, if_false, hcol, Bool.not_true, hdup, if_true]
  exact ⟨h1, by rw [h1], by rw [h1], by rw [h1]⟩

/-- C10 witness: adding key `"7"` when the backing sheet already holds a
row keyed `"7"` is rejected with everything but the directory-existence
flag unchanged. -/
theorem c10_witness :
    save_entry COLUMNS
        ⟨some ⟨["Search No"], [["7"]]⟩, false, [], [], false⟩
        ⟨fun c => if c == "Search No" then "7" else "", "c:/x.pdf", "u", "t"⟩
      = (.duplicateError, ⟨some ⟨["Search No"], [["7"]]⟩, true, [], [], false⟩) :=
  (c10_duplicate_key_rejected COLUMNS
      ⟨some ⟨["Search No"], [["7"]]⟩, false, [], [], false⟩
      ⟨fun c => if c == "Search No" then "7" else "", "c:/x.pdf", "u", "t"⟩
      (by decide) (by decide) (by decide) (by decide)).1

end Macro
